import Mathlib

/-!
Verification of the `SingletonProcess` port-lock class (src/singleton.hpp).

The class holds a socket descriptor (`socket_fd_`, `-1` when unbound) and a
port (`port_`). Its call operator attempts, once per instance, to create a
datagram socket and bind it to the loopback address on `port_`; the
destructor closes the descriptor when one is held.

The OS socket layer is modelled by an oracle (`OSBehavior`) giving the
outcome of the one socket/bind interaction an acquisition attempt can make,
and every embedded operation returns, besides its C++ return value and the
updated object, the list of syscall events it performed, so that resource
(descriptor) accounting can be stated and proved.
-/

/-- Cause of a failed bind syscall, as `errno` would report it.
The C++ code never inspects `errno`, so this is only an observation
point for the proofs. -/
inductive BindCause where
  | addrInUse
  | permDenied
  | otherErr
deriving DecidableEq, Repr

/-- Outcome the OS gives to one acquisition attempt: `socket()` fails
returning `-1`; or `socket()` returns descriptor `fd` and `bind()` fails
with some cause; or `socket()` returns `fd` and `bind()` succeeds. -/
inductive OSBehavior where
  | socketFail
  | bindFail (fd : Nat) (cause : BindCause)
  | bindOk (fd : Nat)
deriving DecidableEq, Repr

/-- A syscall event performed by the object, in order. -/
inductive Event where
  | sysSocket (ret : Int)
  | sysBind (fd : Int) (port : Nat) (ok : Bool)
  | sysClose (fd : Int)
deriving DecidableEq, Repr

/-- The `SingletonProcess` object state: the two data members of the C++
class. `socket_fd_` is `-1` when no descriptor is held. -/
structure SingletonProcess where
  socket_fd_ : Int
  port_ : Nat
deriving DecidableEq, Repr

/-- The constructor `SingletonProcess(uint16_t port)`: initializes
`socket_fd_` to `-1` and stores the port. It performs no syscall, so its
event list is empty. -/
def mkSingletonProcess (port : Nat) : SingletonProcess × List Event :=
  ({ socket_fd_ := -1, port_ := port }, [])

/-- The call operator `bool SingletonProcess::operator()()`: when
`socket_fd_ == -1`, creates a socket (storing the return value in
`socket_fd_`, returning `false` if it is negative), then binds it to the
loopback address on `port_`; on bind failure closes the socket, resets
`socket_fd_` to `-1` and returns `false`. In every remaining path it
returns `socket_fd_ != -1`. Result: (return value, updated object, syscall
events in order). -/
def callOperator (sp : SingletonProcess) (os : OSBehavior) :
    Bool × SingletonProcess × List Event :=
  if sp.socket_fd_ = -1 then
    match os with
    | .socketFail =>
        (false, { sp with socket_fd_ := -1 }, [Event.sysSocket (-1)])
    | .bindFail fd _cause =>
        (false, { sp with socket_fd_ := -1 },
          [Event.sysSocket (fd : Int),
           Event.sysBind (fd : Int) sp.port_ false,
           Event.sysClose (fd : Int)])
    | .bindOk fd =>
        (((fd : Int) != -1), { sp with socket_fd_ := (fd : Int) },
          [Event.sysSocket (fd : Int),
           Event.sysBind (fd : Int) sp.port_ true])
  else
    ((sp.socket_fd_ != -1), sp, [])

/-- The destructor `SingletonProcess::~SingletonProcess()`: closes the
descriptor and resets it to `-1` when one is held, otherwise does
nothing. -/
def destructor (sp : SingletonProcess) : SingletonProcess × List Event :=
  if sp.socket_fd_ != -1 then
    ({ sp with socket_fd_ := -1 }, [Event.sysClose sp.socket_fd_])
  else
    (sp, [])

/-- The exception type `SingletonException` defined in the header. -/
structure SingletonException where
  message : String
deriving DecidableEq, Repr

/-- The call operator translated into the exception monad: a `throw`
statement in the C++ body would appear as `Except.error`; the body has
none, so every path is a `return`. -/
def callOperatorE (sp : SingletonProcess) (os : OSBehavior) :
    Except SingletonException (Bool × SingletonProcess × List Event) := do
  if sp.socket_fd_ = -1 then
    match os with
    | .socketFail =>
        return (false, { sp with socket_fd_ := -1 }, [Event.sysSocket (-1)])
    | .bindFail fd _cause =>
        return (false, { sp with socket_fd_ := -1 },
          [Event.sysSocket (fd : Int),
           Event.sysBind (fd : Int) sp.port_ false,
           Event.sysClose (fd : Int)])
    | .bindOk fd =>
        return (((fd : Int) != -1), { sp with socket_fd_ := (fd : Int) },
          [Event.sysSocket (fd : Int),
           Event.sysBind (fd : Int) sp.port_ true])
  else
    return ((sp.socket_fd_ != -1), sp, [])

/-- The destructor translated into the exception monad; its body contains
no `throw` either. -/
def destructorE (sp : SingletonProcess) :
    Except SingletonException (SingletonProcess × List Event) := do
  if sp.socket_fd_ != -1 then
    return ({ sp with socket_fd_ := -1 }, [Event.sysClose sp.socket_fd_])
  else
    return (sp, [])

/-- Effect of one syscall event on the list of live descriptors owned by
the object: a successful `socket()` adds its descriptor, `close()` removes
it, `bind()` changes nothing. -/
def liveStep (l : List Int) : Event → List Int
  | Event.sysSocket r => if 0 ≤ r then r :: l else l
  | Event.sysBind _ _ _ => l
  | Event.sysClose fd => l.erase fd

/-- Live descriptors after a list of events, starting from `l`. -/
def liveAfter (l : List Int) : List Event → List Int
  | [] => l
  | e :: es => liveAfter (liveStep l e) es

/-- Descriptors owned by the object at rest: the stored one when
`socket_fd_ != -1`, none otherwise. -/
def ownedDescriptors (sp : SingletonProcess) : List Int :=
  if sp.socket_fd_ != -1 then [sp.socket_fd_] else []

/-! ## Claims -/

/-- C1 counterexample: from a fresh instance on port 23, a bind failure
because the port is already held and a bind failure because permission is
denied produce exactly the same observable outcome (return value, object
state, and syscall events): the caller cannot distinguish them, and the
common return value is `false`, not a typed error. -/
theorem bind_causes_same_outcome_at_23 :
    callOperator (mkSingletonProcess 23).1 (OSBehavior.bindFail 3 BindCause.addrInUse)
      = callOperator (mkSingletonProcess 23).1 (OSBehavior.bindFail 3 BindCause.permDenied)
    ∧ (callOperator (mkSingletonProcess 23).1 (OSBehavior.bindFail 3 BindCause.addrInUse)).1
      = false := by
  decide

/-- C1 amended: every bind failure yields the same result regardless of
its cause — the cause is discarded, and from an unbound instance the
return value is `false` for any cause; `AlreadyHeld` and `BindFailed` are
not distinguishable through the boolean interface. -/
theorem bind_failure_cause_discarded (sp : SingletonProcess) (fd : Nat)
    (c c' : BindCause) (h : sp.socket_fd_ = -1) :
    callOperator sp (OSBehavior.bindFail fd c)
      = callOperator sp (OSBehavior.bindFail fd c')
    ∧ (callOperator sp (OSBehavior.bindFail fd c)).1 = false := by
  simp [callOperator, h]

/-- C1 amended witness at port 23, descriptor 3. -/
theorem bind_failure_cause_discarded_witness :
    callOperator { socket_fd_ := -1, port_ := 23 } (OSBehavior.bindFail 3 BindCause.addrInUse)
      = callOperator { socket_fd_ := -1, port_ := 23 } (OSBehavior.bindFail 3 BindCause.otherErr)
    ∧ (callOperator { socket_fd_ := -1, port_ := 23 } (OSBehavior.bindFail 3 BindCause.addrInUse)).1
      = false :=
  bind_failure_cause_discarded { socket_fd_ := -1, port_ := 23 } 3
    BindCause.addrInUse BindCause.otherErr rfl

/-- C2 counterexample: after a failing acquisition call the object is
exactly the freshly constructed one — the post-failure state is not
distinct from the initial Unacquired state, so no separate Failed state
exists. -/
theorem failed_state_equals_initial_state :
    (callOperator (mkSingletonProcess 8080).1 OSBehavior.socketFail).2.1
      = (mkSingletonProcess 8080).1
    ∧ (callOperator (mkSingletonProcess 8080).1 OSBehavior.socketFail).1 = false := by
  decide

/-- C2 amended: from any reachable state (descriptor `-1` or
non-negative), after the call returns either the result is `true` and a
non-negative descriptor is stored (Held), or the result is `false` and the
object is back in its initial representation with `socket_fd_ = -1`
(indistinguishable from Unacquired). -/
theorem acquire_result_dichotomy (sp : SingletonProcess) (os : OSBehavior)
    (h : sp.socket_fd_ = -1 ∨ 0 ≤ sp.socket_fd_) :
    ((callOperator sp os).1 = true ∧ 0 ≤ (callOperator sp os).2.1.socket_fd_)
    ∨ ((callOperator sp os).1 = false ∧ (callOperator sp os).2.1 = sp
        ∧ sp.socket_fd_ = -1) := by
  obtain ⟨f, p⟩ := sp
  rcases h with h | h
  · subst h
    cases os with
    | socketFail => right; simp [callOperator]
    | bindFail fd c => right; simp [callOperator]
    | bindOk fd =>
        left
        constructor
        · simp [callOperator]
        · simp [callOperator]
  · by_cases hf : f = -1
    · subst hf
      cases os with
      | socketFail => right; simp [callOperator]
      | bindFail fd c => right; simp [callOperator]
      | bindOk fd =>
          left
          constructor
          · simp [callOperator]
          · simp [callOperator]
    · left
      simp [callOperator, hf]
      exact h

/-- C2 amended witness: a successful bind on a fresh port-8080 instance. -/
theorem acquire_result_dichotomy_witness :
    ((callOperator { socket_fd_ := -1, port_ := 8080 } (OSBehavior.bindOk 3)).1 = true
      ∧ 0 ≤ (callOperator { socket_fd_ := -1, port_ := 8080 } (OSBehavior.bindOk 3)).2.1.socket_fd_)
    ∨ ((callOperator { socket_fd_ := -1, port_ := 8080 } (OSBehavior.bindOk 3)).1 = false
      ∧ (callOperator { socket_fd_ := -1, port_ := 8080 } (OSBehavior.bindOk 3)).2.1
          = { socket_fd_ := -1, port_ := 8080 }
      ∧ ({ socket_fd_ := -1, port_ := 8080 } : SingletonProcess).socket_fd_ = -1) :=
  acquire_result_dichotomy { socket_fd_ := -1, port_ := 8080 } (OSBehavior.bindOk 3)
    (Or.inl rfl)

/-- C3: once the instance holds a descriptor (acquisition succeeded,
`socket_fd_ ≥ 0`), every further acquisition call returns `true`, leaves
the object unchanged, and performs no syscall at all. -/
theorem acquire_idempotent_after_success (sp : SingletonProcess)
    (os : OSBehavior) (h : 0 ≤ sp.socket_fd_) :
    callOperator sp os = (true, sp, []) := by
  have hne : ¬ sp.socket_fd_ = -1 := by omega
  simp [callOperator, hne]

/-- C3 witness: a held instance (descriptor 5, port 8080) re-called under
any OS behavior. -/
theorem acquire_idempotent_after_success_witness :
    callOperator { socket_fd_ := 5, port_ := 8080 } OSBehavior.socketFail
      = (true, { socket_fd_ := 5, port_ := 8080 }, []) :=
  acquire_idempotent_after_success { socket_fd_ := 5, port_ := 8080 }
    OSBehavior.socketFail (by decide)

/-- C4: on every failure path of the acquisition call, no descriptor is
leaked: whenever the call returns `false`, every non-negative descriptor a
`socket()` event allocated is also closed by a `close()` event before the
call returns. -/
theorem no_descriptor_leak_on_failure (sp : SingletonProcess)
    (os : OSBehavior) (fd : Int)
    (hres : (callOperator sp os).1 = false)
    (hmem : Event.sysSocket fd ∈ (callOperator sp os).2.2)
    (hfd : 0 ≤ fd) :
    Event.sysClose fd ∈ (callOperator sp os).2.2 := by
  obtain ⟨f, p⟩ := sp
  by_cases hf : f = -1
  · subst hf
    cases os with
    | socketFail =>
        simp [callOperator] at hmem
        omega
    | bindFail fd' c =>
        simp [callOperator] at hmem ⊢
        simp [hmem]
    | bindOk fd' =>
        simp [callOperator] at hres
  · simp [callOperator, hf] at hmem

/-- C5 counterexample: a fresh instance on port 8080 whose first
acquisition call fails (reaching the Failed outcome, return `false`) and
whose very next acquisition call succeeds reaches the Held state
(return `true`, descriptor 4 stored) with no destruction and no reset
operation in between — Failed reaches Held without any explicit reset. -/
theorem failed_reaches_held_without_reset :
    (callOperator (mkSingletonProcess 8080).1
        (OSBehavior.bindFail 3 BindCause.addrInUse)).1 = false
    ∧ (callOperator
        (callOperator (mkSingletonProcess 8080).1
          (OSBehavior.bindFail 3 BindCause.addrInUse)).2.1
        (OSBehavior.bindOk 4)).1 = true
    ∧ (callOperator
        (callOperator (mkSingletonProcess 8080).1
          (OSBehavior.bindFail 3 BindCause.addrInUse)).2.1
        (OSBehavior.bindOk 4)).2.1.socket_fd_ = 4 := by
  decide

/-- C5 amended: once the instance is Held (`socket_fd_ ≥ 0`), the stored
descriptor is never changed or closed by any further acquisition call
(the call performs no syscall at all), and only the destructor closes it,
resetting the object; so Held is left only at destruction and never
transitions to Failed — but a Failed instance may reach Held through a
later successful acquisition call, there being no reset operation. -/
theorem held_descriptor_stable_until_destruction (sp : SingletonProcess)
    (os : OSBehavior) (h : 0 ≤ sp.socket_fd_) :
    (callOperator sp os).2.1.socket_fd_ = sp.socket_fd_
    ∧ (callOperator sp os).2.2 = []
    ∧ destructor sp
        = ({ sp with socket_fd_ := -1 }, [Event.sysClose sp.socket_fd_]) := by
  have hne : ¬ sp.socket_fd_ = -1 := by omega
  refine ⟨?_, ?_, ?_⟩
  · simp [callOperator, hne]
  · simp [callOperator, hne]
  · simp [destructor, hne]

/-- C5 amended witness: held instance with descriptor 5 on port 8080. -/
theorem held_descriptor_stable_until_destruction_witness :
    (callOperator { socket_fd_ := 5, port_ := 8080 } (OSBehavior.bindOk 9)).2.1.socket_fd_
      = ({ socket_fd_ := 5, port_ := 8080 } : SingletonProcess).socket_fd_
    ∧ (callOperator { socket_fd_ := 5, port_ := 8080 } (OSBehavior.bindOk 9)).2.2 = []
    ∧ destructor { socket_fd_ := 5, port_ := 8080 }
        = ({ socket_fd_ := -1, port_ := 8080 }, [Event.sysClose 5]) :=
  held_descriptor_stable_until_destruction { socket_fd_ := 5, port_ := 8080 }
    (OSBehavior.bindOk 9) (by decide)

/-- C6: at every intermediate point of an acquisition call or of the
destructor (every prefix of the syscall events, starting from the
descriptors owned at rest), the object owns at most one live
descriptor. -/
theorem at_most_one_live_descriptor (sp : SingletonProcess)
    (os : OSBehavior) (n : Nat) :
    (liveAfter (ownedDescriptors sp) ((callOperator sp os).2.2.take n)).length ≤ 1
    ∧ (liveAfter (ownedDescriptors sp) ((destructor sp).2.take n)).length ≤ 1 := by
  obtain ⟨f, p⟩ := sp
  by_cases hf : f = -1
  · subst hf
    constructor
    · cases os with
      | socketFail =>
          match n with
          | 0 => simp [callOperator, ownedDescriptors, liveAfter]
          | n + 1 =>
              simp [callOperator, ownedDescriptors, liveAfter, liveStep,
                List.take_succ_cons]
      | bindFail fd c =>
          match n with
          | 0 => simp [callOperator, ownedDescriptors, liveAfter]
          | 1 =>
              simp [callOperator, ownedDescriptors, liveAfter, liveStep,
                List.take_succ_cons]
          | 2 =>
              simp [callOperator, ownedDescriptors, liveAfter, liveStep,
                List.take_succ_cons]
          | n + 3 =>
              simp [callOperator, ownedDescriptors, liveAfter, liveStep,
                List.take_succ_cons]
      | bindOk fd =>
          match n with
          | 0 => simp [callOperator, ownedDescriptors, liveAfter]
          | 1 =>
              simp [callOperator, ownedDescriptors, liveAfter, liveStep,
                List.take_succ_cons]
          | n + 2 =>
              simp [callOperator, ownedDescriptors, liveAfter, liveStep,
                List.take_succ_cons]
    · simp [destructor, ownedDescriptors, liveAfter]
  · constructor
    · simp [callOperator, ownedDescriptors, hf, liveAfter]
    · match n with
      | 0 => simp [destructor, ownedDescriptors, hf, liveAfter]
      | n + 1 =>
          simp [destructor, ownedDescriptors, hf, liveAfter, liveStep,
            List.take_succ_cons]

/-- C7: the destructor of a held instance (`socket_fd_ != -1`) closes
exactly the held descriptor and resets the object; the destructor of an
instance holding no descriptor performs no syscall; in both cases the
object owns no descriptor afterwards. -/
theorem destructor_releases_lock (sp : SingletonProcess) :
    (sp.socket_fd_ ≠ -1 →
      (destructor sp).2 = [Event.sysClose sp.socket_fd_]
      ∧ (destructor sp).1.socket_fd_ = -1)
    ∧ (sp.socket_fd_ = -1 → destructor sp = (sp, []))
    ∧ ownedDescriptors (destructor sp).1 = [] := by
  by_cases hf : sp.socket_fd_ = -1
  · refine ⟨fun h => absurd hf h, fun _ => ?_, ?_⟩
    · simp [destructor, hf]
    · simp [destructor, ownedDescriptors, hf]
  · refine ⟨fun _ => ?_, fun h => absurd h hf, ?_⟩
    · simp [destructor, hf]
    · simp [destructor, ownedDescriptors, hf]

/-- C7 witness: a held instance (descriptor 5) and an unheld one. -/
theorem destructor_releases_lock_witness :
    (destructor { socket_fd_ := 5, port_ := 8080 }).2 = [Event.sysClose 5]
    ∧ (destructor { socket_fd_ := 5, port_ := 8080 }).1.socket_fd_ = -1
    ∧ destructor { socket_fd_ := -1, port_ := 8080 }
        = ({ socket_fd_ := -1, port_ := 8080 }, []) :=
  ⟨((destructor_releases_lock { socket_fd_ := 5, port_ := 8080 }).1 (by decide)).1,
   ((destructor_releases_lock { socket_fd_ := 5, port_ := 8080 }).1 (by decide)).2,
   (destructor_releases_lock { socket_fd_ := -1, port_ := 8080 }).2.1 rfl⟩

/-- C8: the constructor stores the port with descriptor `-1` and performs
no syscall; the stored port is never changed by an acquisition call or by
the destructor; and every bind syscall an acquisition call performs uses
exactly the stored port. -/
theorem construction_stores_port_no_io (p : Nat) (sp : SingletonProcess)
    (os : OSBehavior) :
    mkSingletonProcess p = ({ socket_fd_ := -1, port_ := p }, [])
    ∧ (callOperator sp os).2.1.port_ = sp.port_
    ∧ (destructor sp).1.port_ = sp.port_
    ∧ ∀ fd pt ok, Event.sysBind fd pt ok ∈ (callOperator sp os).2.2
        → pt = sp.port_ := by
  refine ⟨rfl, ?_, ?_, ?_⟩
  · by_cases hf : sp.socket_fd_ = -1 <;> cases os <;>
      simp [callOperator, hf]
  · by_cases hf : sp.socket_fd_ = -1 <;> simp [destructor, hf]
  · intro fd pt ok hmem
    by_cases hf : sp.socket_fd_ = -1 <;> cases os <;>
      simp [callOperator, hf] at hmem <;> tauto

/-- C8 witness: construction on port 8080 and a successful bind; the bind
event's port is the stored one. -/
theorem construction_stores_port_no_io_witness :
    mkSingletonProcess 8080 = ({ socket_fd_ := -1, port_ := 8080 }, [])
    ∧ (callOperator { socket_fd_ := -1, port_ := 8080 } (OSBehavior.bindOk 3)).2.1.port_
      = ({ socket_fd_ := -1, port_ := 8080 } : SingletonProcess).port_
    ∧ (8080 : Nat) = ({ socket_fd_ := -1, port_ := 8080 } : SingletonProcess).port_ :=
  ⟨(construction_stores_port_no_io 8080 { socket_fd_ := -1, port_ := 8080 }
      (OSBehavior.bindOk 3)).1,
   (construction_stores_port_no_io 8080 { socket_fd_ := -1, port_ := 8080 }
      (OSBehavior.bindOk 3)).2.1,
   (construction_stores_port_no_io 8080 { socket_fd_ := -1, port_ := 8080 }
      (OSBehavior.bindOk 3)).2.2.2 3 8080 true (by decide)⟩

/-- C9: when an acquisition call from an unbound instance fails, the
object is left exactly equal to its pre-call state (descriptor `-1`), and
any later acquisition call starts with a fresh `socket()` syscall, with a
bind attempt following whenever socket creation succeeds. -/
theorem failed_acquire_atomic_and_retried (sp : SingletonProcess)
    (os : OSBehavior) (h : sp.socket_fd_ = -1)
    (hres : (callOperator sp os).1 = false) :
    (callOperator sp os).2.1 = sp
    ∧ (∀ os', ∃ r rest,
        (callOperator (callOperator sp os).2.1 os').2.2
          = Event.sysSocket r :: rest)
    ∧ (∀ fd c, Event.sysBind (fd : Int) sp.port_ false
        ∈ (callOperator (callOperator sp os).2.1 (OSBehavior.bindFail fd c)).2.2)
    ∧ (∀ fd, Event.sysBind (fd : Int) sp.port_ true
        ∈ (callOperator (callOperator sp os).2.1 (OSBehavior.bindOk fd)).2.2) := by
  obtain ⟨f, p⟩ := sp
  simp only at h
  subst h
  have hpost : (callOperator { socket_fd_ := -1, port_ := p } os).2.1
      = { socket_fd_ := -1, port_ := p } := by
    cases os with
    | socketFail => simp [callOperator]
    | bindFail fd c => simp [callOperator]
    | bindOk fd => simp [callOperator] at hres
  refine ⟨hpost, ?_, ?_, ?_⟩
  · intro os'
    rw [hpost]
    cases os' with
    | socketFail => exact ⟨-1, _, rfl⟩
    | bindFail fd c => exact ⟨(fd : Int), _, rfl⟩
    | bindOk fd => exact ⟨(fd : Int), _, rfl⟩
  · intro fd c
    rw [hpost]
    simp [callOperator]
  · intro fd
    rw [hpost]
    simp [callOperator]

/-- C9 witness: a socket-creation failure on a fresh port-8080 instance,
retried with a successful bind of descriptor 7. -/
theorem failed_acquire_atomic_and_retried_witness :
    (callOperator { socket_fd_ := -1, port_ := 8080 } OSBehavior.socketFail).2.1
      = { socket_fd_ := -1, port_ := 8080 }
    ∧ (∃ r rest,
        (callOperator
          (callOperator { socket_fd_ := -1, port_ := 8080 } OSBehavior.socketFail).2.1
          (OSBehavior.bindOk 7)).2.2 = Event.sysSocket r :: rest)
    ∧ Event.sysBind (7 : Int) 8080 true
        ∈ (callOperator
            (callOperator { socket_fd_ := -1, port_ := 8080 } OSBehavior.socketFail).2.1
            (OSBehavior.bindOk 7)).2.2 :=
  ⟨(failed_acquire_atomic_and_retried { socket_fd_ := -1, port_ := 8080 }
      OSBehavior.socketFail rfl (by decide)).1,
   (failed_acquire_atomic_and_retried { socket_fd_ := -1, port_ := 8080 }
      OSBehavior.socketFail rfl (by decide)).2.1 (OSBehavior.bindOk 7),
   (failed_acquire_atomic_and_retried { socket_fd_ := -1, port_ := 8080 }
      OSBehavior.socketFail rfl (by decide)).2.2.2 7⟩

/-- C10: neither the acquisition call nor the destructor ever produces an
exception: their exception-monad translations return `Except.ok` of the
plain results on every input, so `SingletonException`, though defined, is
never thrown. -/
theorem operations_never_throw (sp : SingletonProcess) (os : OSBehavior) :
    callOperatorE sp os = Except.ok (callOperator sp os)
    ∧ destructorE sp = Except.ok (destructor sp) := by
  constructor
  · by_cases hf : sp.socket_fd_ = -1 <;> cases os <;>
      simp [callOperatorE, callOperator, hf, pure, Except.pure]
  · by_cases hf : sp.socket_fd_ = -1 <;>
      simp [destructorE, destructor, hf, pure, Except.pure]

/-- C4 witness: a bind failure on a fresh port-8080 instance allocated
descriptor 3, and a matching close event is in the call's events. -/
theorem no_descriptor_leak_on_failure_witness :
    Event.sysClose 3
      ∈ (callOperator { socket_fd_ := -1, port_ := 8080 }
          (OSBehavior.bindFail 3 BindCause.addrInUse)).2.2 :=
  no_descriptor_leak_on_failure { socket_fd_ := -1, port_ := 8080 }
    (OSBehavior.bindFail 3 BindCause.addrInUse) 3
    (by decide) (by decide) (by decide)
